import Mathlib

/-!
Verification of the bigpit web server (src/main.py).

The repository registers three static mounts (static, dist, assets), one
templated root page, and an entry point binding uvicorn to 0.0.0.0:5000.
The route table, the mount list, the template directory and name, the
template context, and the hard-coded bind address come directly from
src/main.py.  The behavior of the static-file resolver, the router
dispatch, and the template renderer is framework code (FastAPI, Starlette,
Jinja2) that is not part of the repository sources; those parts are
modelled from the words of the specification and marked as such below.

Conventions: only GET requests are modelled (the specification defines no
behavior for other methods); a request path is the list of URL segments,
so the root path / is the empty list.
-/

/-- An inbound HTTP GET request, represented by its URL path split into
segments.  The root path / is the empty segment list. -/
structure Request where
  path : List String
deriving DecidableEq, Repr

/-- An HTTP response: status code, optional content type, body bytes
(modelled as a string). -/
structure Response where
  status : Nat
  contentType : Option String
  body : String
deriving DecidableEq, Repr

/-- The server file system: a finite association of segment paths to file
contents.  Directories and the template file live here as external inputs,
as the specification says. -/
def FS : Type := List (List String × String)

/-- Look a path up in the file system. -/
def fsLookup (fs : FS) (p : List String) : Option String :=
  match fs with
  | [] => none
  | (q, c) :: rest => if q = p then some c else fsLookup rest p

/-- The three static mounts registered in src/main.py lines 7 to 9:
URL segment paired with the directory it maps to. -/
def mounts : List (String × String) :=
  [("static", "static"), ("dist", "dist"), ("assets", "assets")]

/-- Find the directory mounted at a given first URL segment. -/
def lookupMount (seg : String) : Option String :=
  (mounts.find? (fun m => m.1 == seg)).map (fun m => m.2)

/-- A route handler kind, following the data model of the specification:
either a static mount onto a directory or the templated page. -/
inductive HandlerKind where
  | staticMount (dir : String)
  | templatedPage (templateName : String)
deriving DecidableEq, Repr

/-- A route: URL path paired with its handler kind. -/
structure Route where
  urlPath : String
  handler : HandlerKind
deriving DecidableEq, Repr

/-- The route table built at startup in src/main.py: the three static
mounts plus the root page route. -/
def routeTable : List Route :=
  mounts.map (fun m => { urlPath := "/" ++ m.1, handler := .staticMount m.2 })
    ++ [{ urlPath := "/", handler := .templatedPage "index.html" }]

/-- Modelled from the spec: resolution of a trailing URL path against a
mount directory.  Segments are processed left to right; a .. segment pops
the last resolved segment and resolves outside the mount (returns none)
when there is nothing left to pop; . and empty segments are skipped.
The accumulator holds the resolved segments in reverse. -/
def resolveSegs : List String → List String → Option (List String)
  | acc, [] => some acc.reverse
  | acc, s :: rest =>
    if s = ".." then
      match acc with
      | [] => none
      | _ :: acc2 => resolveSegs acc2 rest
    else if s = "." then resolveSegs acc rest
    else if s = "" then resolveSegs acc rest
    else resolveSegs (s :: acc) rest

/-- Resolve a trailing URL path; none means the path escapes the mount
directory. -/
def resolvePath (segs : List String) : Option (List String) :=
  resolveSegs [] segs

/-- Whether the string ends with the given text, computed on the
underlying character lists. -/
def hasSuffix (s suf : String) : Bool :=
  suf.toList.isSuffixOf s.toList

/-- Modelled from the spec: the content type inferred from the extension
of the served file name. -/
def inferContentType (name : String) : String :=
  if hasSuffix name ".html" then "text/html"
  else if hasSuffix name ".css" then "text/css"
  else if hasSuffix name ".js" then "application/javascript"
  else if hasSuffix name ".png" then "image/png"
  else if hasSuffix name ".jpg" then "image/jpeg"
  else "application/octet-stream"

/-- The name of the file a resolved static request denotes: the last
resolved segment, or the mount directory itself when no segment is left. -/
def fileNameOf (dir : String) (segs : List String) : String :=
  segs.getLast?.getD dir

/-- The not-found response: status 404 with a fixed plain-text body, so
its body is never the contents of any file. -/
def notFoundResponse : Response :=
  { status := 404, contentType := some "text/plain", body := "Not Found" }

/-- The internal-error response returned when rendering fails. -/
def serverErrorResponse : Response :=
  { status := 500, contentType := some "text/plain", body := "Internal Server Error" }

/-- Modelled from the spec: serving a static file.  The trailing path is
resolved against the mount directory; escaping paths and missing files
give 404, otherwise the bytes of the file are returned with status 200
and an inferred content type. -/
def serveStatic (fs : FS) (dir : String) (trail : List String) : Response :=
  match resolvePath trail with
  | none => notFoundResponse
  | some segs =>
    match fsLookup fs (dir :: segs) with
    | none => notFoundResponse
    | some content =>
      { status := 200
        contentType := some (inferContentType (fileNameOf dir segs))
        body := content }

/-- A template context: a mapping from variable names to values; the root
handler in src/main.py line 14 passes the mapping from the name request to
the inbound request object. -/
def Context : Type := List (String × Request)

/-- The context built by the root handler in src/main.py line 14. -/
def contextOf (r : Request) : Context :=
  [("request", r)]

/-- Look a variable up in a template context. -/
def ctxLookup (ctx : Context) (key : String) : Option Request :=
  match ctx with
  | [] => none
  | (k, v) :: rest => if k = key then some v else ctxLookup rest key

/-- Render a request as text, for substitution into a template. -/
def showRequest (r : Request) : String :=
  "/" ++ String.intercalate "/" r.path

/-- Modelled from the spec: template rendering is variable substitution
supplied by the framework.  Occurrences of the request placeholder in the
template text are replaced by the rendered request from the context. -/
def render (ctx : Context) (tmpl : String) : String :=
  match ctxLookup ctx "request" with
  | none => tmpl
  | some r => String.intercalate (showRequest r) (tmpl.splitOn "\x7b\x7brequest\x7d\x7d")

/-- The root page handler from src/main.py lines 12 to 14: renders
templates/index.html with a context holding the inbound request; the spec
assigns status 500 to a rendering failure such as a missing template. -/
def rootPage (fs : FS) (req : Request) : Response :=
  match fsLookup fs ["templates", "index.html"] with
  | none => serverErrorResponse
  | some tmpl =>
    { status := 200
      contentType := some "text/html"
      body := render (contextOf req) tmpl }

/-- Modelled from the spec: dispatch an inbound request over the route
table.  The empty path is the root page; a path whose first segment names
a mount is served from that directory; anything else is 404. -/
def handle (fs : FS) (req : Request) : Response :=
  match req.path with
  | [] => rootPage fs req
  | seg :: rest =>
    match lookupMount seg with
    | none => notFoundResponse
    | some dir => serveStatic fs dir rest

/-- The full server state: the route table and the file system.  No other
state exists. -/
structure ServerState where
  routes : List Route
  fs : FS

/-- The state built at startup: the route table of src/main.py over the
given file system. -/
def initState (fs : FS) : ServerState :=
  { routes := routeTable, fs := fs }

/-- One request-response step of the server.  The handlers of src/main.py
only read from the file system, so the state is returned unchanged. -/
def step (s : ServerState) (req : Request) : Response × ServerState :=
  (handle s.fs req, s)

/-- Serve a sequence of requests, threading the server state through. -/
def serveAll : ServerState → List Request → List Response × ServerState
  | s, [] => ([], s)
  | s, r :: rs =>
    ((step s r).1 :: (serveAll (step s r).2 rs).1, (serveAll (step s r).2 rs).2)

/-- The socket binding performed by the entry point, src/main.py line 17:
uvicorn.run(app, host and port hard-coded).  The process arguments are
not consulted anywhere in src/main.py, so they are ignored. -/
def mainBinding (_argv : List String) : String × Nat :=
  ("0.0.0.0", 5000)

/-- Helper: one server step never changes the server state, since every
handler in src/main.py only reads. -/
theorem step_state_eq (s : ServerState) (req : Request) : (step s req).2 = s :=
  rfl

/-- Helper: serving any sequence of requests leaves the server state
unchanged. -/
theorem serveAll_state_eq (s : ServerState) : ∀ reqs, (serveAll s reqs).2 = s
  | [] => rfl
  | _ :: rs => serveAll_state_eq s rs

/-- C1: a request under one of the mounts whose trailing path resolves
outside the mount directory (resolvePath returns none) is answered with
the fixed 404 response, whose body is the constant text Not Found, never
the bytes of any file. -/
theorem traversal_requests_return_404 (fs : FS) (seg dir : String)
    (rest : List String) (hm : lookupMount seg = some dir)
    (hesc : resolvePath rest = none) :
    handle fs { path := seg :: rest } = notFoundResponse := by
  simp [handle, hm, serveStatic, hesc]

/-- Witness for C1: GET /static/../main.py is answered 404. -/
theorem traversal_requests_return_404_witness :
    handle [(["main.py"], "source code")] { path := ["static", "..", "main.py"] }
      = notFoundResponse :=
  traversal_requests_return_404 [(["main.py"], "source code")] "static" "static"
    ["..", "main.py"] (by decide) (by decide)

/-- C2: for a request under a mount whose trailing path resolves inside
the mount directory, an existing file is returned with status 200, its
exact bytes and an inferred content type; a missing file gives 404. -/
theorem mounted_file_served_exactly (fs : FS) (seg dir : String)
    (rest segs : List String) (hm : lookupMount seg = some dir)
    (hres : resolvePath rest = some segs) :
    (∀ content, fsLookup fs (dir :: segs) = some content →
      handle fs { path := seg :: rest } =
        { status := 200
          contentType := some (inferContentType (fileNameOf dir segs))
          body := content }) ∧
    (fsLookup fs (dir :: segs) = none →
      handle fs { path := seg :: rest } = notFoundResponse) := by
  constructor
  · intro content hc
    simp [handle, hm, serveStatic, hres, hc]
  · intro hc
    simp [handle, hm, serveStatic, hres, hc]

/-- Witness for C2: GET /static/logo.png where static/logo.png holds the
image bytes returns 200 with those bytes and an image content type. -/
theorem mounted_file_served_exactly_witness :
    inferContentType (fileNameOf "static" ["logo.png"]) = "image/png" ∧
    handle [(["static", "logo.png"], "imagebytes")] { path := ["static", "logo.png"] }
      = { status := 200
          contentType := some (inferContentType (fileNameOf "static" ["logo.png"]))
          body := "imagebytes" } :=
  ⟨by decide, (mounted_file_served_exactly [(["static", "logo.png"], "imagebytes")] "static"
    "static" ["logo.png"] ["logo.png"] (by decide) (by decide)).1 "imagebytes" (by decide)⟩

/-- C3: when templates/index.html is present, GET / returns status 200
and content-type text/html, the body being the template rendered with the
context built from the inbound request, and that context maps the name
request to the inbound request object. -/
theorem root_renders_template (fs : FS) (req : Request) (tmpl : String)
    (hp : req.path = []) (ht : fsLookup fs ["templates", "index.html"] = some tmpl) :
    handle fs req =
      { status := 200
        contentType := some "text/html"
        body := render (contextOf req) tmpl } ∧
    ctxLookup (contextOf req) "request" = some req := by
  obtain ⟨p⟩ := req
  subst hp
  exact ⟨by simp [handle, rootPage, ht], by simp [contextOf, ctxLookup]⟩

/-- Witness for C3: GET / with the template present returns the rendered
page with status 200 and content-type text/html. -/
theorem root_renders_template_witness :
    handle [(["templates", "index.html"], "hello")] { path := [] } =
      { status := 200
        contentType := some "text/html"
        body := render (contextOf { path := [] }) "hello" } ∧
    ctxLookup (contextOf { path := [] }) "request" = some { path := [] } :=
  root_renders_template [(["templates", "index.html"], "hello")] { path := [] }
    "hello" rfl (by decide)

/-- C4: a request whose first path segment matches no mount (and whose
path is not the root path) is answered 404. -/
theorem unmatched_path_returns_404 (fs : FS) (seg : String) (rest : List String)
    (hm : lookupMount seg = none) :
    handle fs { path := seg :: rest } = notFoundResponse := by
  simp [handle, hm]

/-- Witness for C4: GET /nonexistent returns 404. -/
theorem unmatched_path_returns_404_witness :
    handle [] { path := ["nonexistent"] } = notFoundResponse :=
  unmatched_path_returns_404 [] "nonexistent" [] (by decide)

/-- C5: when templates/index.html is absent, GET / is answered with the
500 response, and the failure is not fatal: any subsequent request is
answered from the same state exactly as it would have been before. -/
theorem missing_template_500_not_fatal (s : ServerState) (req later : Request)
    (hp : req.path = []) (ht : fsLookup s.fs ["templates", "index.html"] = none) :
    (step s req).1 = serverErrorResponse ∧
    step (step s req).2 later = step s later := by
  obtain ⟨p⟩ := req
  subst hp
  exact ⟨by simp [step, handle, rootPage, ht], rfl⟩

/-- Witness for C5: with an empty file system, GET / gives 500 and a
later GET /nonexistent is still served (404) from the unchanged state. -/
theorem missing_template_500_not_fatal_witness :
    (step (initState []) { path := [] }).1 = serverErrorResponse ∧
    step (step (initState []) { path := [] }).2 { path := ["nonexistent"] }
      = step (initState []) { path := ["nonexistent"] } :=
  missing_template_500_not_fatal (initState []) { path := [] }
    { path := ["nonexistent"] } rfl (by decide)

/-- C6 counterexample: the binding is not configurable; no two argument
lists make the entry point bind differently, refuting the configurable
part of the claim. -/
theorem main_binding_not_configurable :
    ¬ ∃ a b : List String, mainBinding a ≠ mainBinding b := by
  rintro ⟨a, b, h⟩
  exact h rfl

/-- C6 amended: process start launches the server bound to host 0.0.0.0
(all interfaces) and port 5000, hard-coded in the entry point; arguments
do not change the binding. -/
theorem main_binding_fixed (argv : List String) :
    mainBinding argv = ("0.0.0.0", 5000) :=
  rfl

/-- C7: the route table is created once at startup and never modified:
after serving any sequence of requests from the startup state, the route
table is still exactly routeTable, and indeed the whole state (so no
shared mutable state either) is unchanged. -/
theorem route_table_immutable (fs : FS) (reqs : List Request) :
    (serveAll (initState fs) reqs).2.routes = routeTable ∧
    (serveAll (initState fs) reqs).2 = initState fs := by
  have h := serveAll_state_eq (initState fs) reqs
  exact ⟨by rw [h]; rfl, h⟩

/-- C8: handling a request changes nothing but producing the response:
the server state, file system included, is identical after any step. -/
theorem request_handling_reads_only (s : ServerState) (req : Request) :
    (step s req).2.fs = s.fs ∧ (step s req).2 = s :=
  ⟨rfl, rfl⟩
